import Mathlib

/-!
Verification of the runningShowoff tracking engine, run-history store,
settings store and unit converter, shallowly embedded from the TypeScript
source (src/app/hooks/useSettings.ts concatenation: useSettings and
useGPSTracking; src/app/hooks/useRunHistory.ts; src/app/utils
constants/formatters).  JavaScript numbers are modelled as rationals,
timestamps as integers, and fallible external effects (storage writes,
permission requests, subscription setup) as explicit outcome parameters.
-/

namespace RunningShowoff

/-! ## Data model (src/app/types/index.ts) -/

inductive DistanceUnit
  | km
  | miles
deriving DecidableEq, Repr

inductive PaceUnit
  | minPerKm
  | minPerMile
deriving DecidableEq, Repr

inductive SpeedUnit
  | kmh
  | mph
deriving DecidableEq, Repr

inductive Theme
  | light
  | dark
deriving DecidableEq, Repr

inductive GpsAccuracy
  | high
  | balanced
deriving DecidableEq, Repr

structure UserSettings where
  distanceUnit : DistanceUnit
  paceUnit : PaceUnit
  speedUnit : SpeedUnit
  theme : Theme
  lockRotation : Bool
  gpsAccuracy : GpsAccuracy
deriving DecidableEq, Repr

structure SettingsSnapshot where
  distanceUnit : DistanceUnit
  paceUnit : PaceUnit
  speedUnit : SpeedUnit
deriving DecidableEq, Repr

structure RunSession where
  id : String
  timestamp : ℤ
  duration : ℤ
  distance : ℚ
  averageSpeed : ℚ
  steps : ℤ
  settingsSnapshot : SettingsSnapshot
deriving DecidableEq, Repr

structure LocationCoords where
  latitude : ℚ
  longitude : ℚ
  accuracy : ℚ
  timestamp : ℤ
deriving DecidableEq, Repr

/-- The coordinate payload of an expo-location position event: `speed` and
`accuracy` are nullable in the host API (`location.coords.speed` may be
absent or negative). -/
structure Fix where
  latitude : ℚ
  longitude : ℚ
  accuracy : Option ℚ
  speed : Option ℚ
  timestamp : ℤ
deriving DecidableEq, Repr

/-- JavaScript `x || 0` on a nullable number: null, undefined and 0 are
falsy and give 0; every other number (negatives included) passes through. -/
def jsOrZero : Option ℚ → ℚ
  | none => 0
  | some s => if s = 0 then 0 else s

/-! ## Constants (src/app/utils/constants.ts) -/

def DEFAULT_SETTINGS : UserSettings :=
  { distanceUnit := DistanceUnit.km
    paceUnit := PaceUnit.minPerKm
    speedUnit := SpeedUnit.kmh
    theme := Theme.light
    lockRotation := true
    gpsAccuracy := GpsAccuracy.high }

/-! ## SettingsStore (src/app/hooks/useSettings.ts, loadSettings)

`useState(DEFAULT_SETTINGS)` initialises the in-memory copy; `loadSettings`
overwrites it only when `AsyncStorage.getItem` returns a string that parses;
an absent key leaves it, and a thrown read or parse error is caught and
leaves it.  The outcome of the external read+parse is a `ReadResult`. -/

inductive ReadResult
  | value (s : UserSettings)
  | absent
  | failure
deriving DecidableEq, Repr

def loadSettings : ReadResult → UserSettings → UserSettings
  | ReadResult.value s, _ => s
  | ReadResult.absent, current => current
  | ReadResult.failure, current => current

/-- The settings the hook holds after the mount-time load. -/
def settingsAfterLoad (r : ReadResult) : UserSettings :=
  loadSettings r DEFAULT_SETTINGS

/-! ## RunHistoryStore (src/app/hooks/useRunHistory.ts)

Each operation computes the updated list, awaits the storage write, and
only then commits it to the in-memory state; a thrown write is caught
(logged, non-fatal) and the commit never runs.  `writeOk` is the outcome
of the external `AsyncStorage` call. -/

def MAX_RUNS_STORED : ℕ := 100

def saveRun (writeOk : Bool) (run : RunSession) (runs : List RunSession) :
    List RunSession :=
  let updatedRuns := run :: runs
  let trimmedRuns := updatedRuns.take MAX_RUNS_STORED
  if writeOk then trimmedRuns else runs

def deleteRun (writeOk : Bool) (runId : String) (runs : List RunSession) :
    List RunSession :=
  let updatedRuns := runs.filter (fun run => run.id != runId)
  if writeOk then updatedRuns else runs

def clearAllRuns (removeOk : Bool) (runs : List RunSession) :
    List RunSession :=
  if removeOk then [] else runs

/-- Iterated successful saves, oldest session first in the input list. -/
def saveAll (sessions : List RunSession) : List RunSession :=
  sessions.foldl (fun acc s => saveRun true s acc) []

/-! ## UnitConverter (src/app/utils/formatters.ts) -/

/-- Renders a scaled nonnegative integer `n` (the value times `10^digits`)
with `digits` decimal places, as `Number.prototype.toFixed` lays digits out. -/
def formatFixed (n : ℤ) (digits : ℕ) : String :=
  let m := n.natAbs
  let intPart := m / 10 ^ digits
  let fracPart := m % 10 ^ digits
  let fracStr := toString fracPart
  let padded := String.mk (List.replicate (digits - fracStr.length) '0') ++ fracStr
  if digits = 0 then toString intPart else toString intPart ++ "." ++ padded

/-- `q.toFixed(digits)` for nonnegative `q`: round to the nearest multiple
of `10 ^ (-digits)` and render with exactly `digits` decimals. -/
def toFixed (q : ℚ) (digits : ℕ) : String :=
  formatFixed (round (q * (10 : ℚ) ^ digits)) digits

def convertDistance (meters : ℚ) (unit : DistanceUnit) : ℚ :=
  match unit with
  | DistanceUnit.km => meters / 1000
  | DistanceUnit.miles => meters / (160934 / 100 : ℚ)

def formatDistance (meters : ℚ) (unit : DistanceUnit) : String :=
  let distance := convertDistance meters unit
  if distance < 10 then toFixed distance 2 else toFixed distance 1

def formatSpeed (metersPerSecond : ℚ) (unit : SpeedUnit) : String :=
  let speed :=
    match unit with
    | SpeedUnit.kmh => metersPerSecond * (36 / 10 : ℚ)
    | SpeedUnit.mph => metersPerSecond * (2237 / 1000 : ℚ)
  toFixed speed 1

def formatTime (seconds : ℤ) : String :=
  let hours := seconds / 3600
  let minutes := seconds % 3600 / 60
  let secs := seconds % 60
  let minStr := toString minutes
  let minPadded := String.mk (List.replicate (2 - minStr.length) '0') ++ minStr
  let secStr := toString secs
  let secPadded := String.mk (List.replicate (2 - secStr.length) '0') ++ secStr
  if hours > 0 then toString hours ++ ":" ++ minPadded ++ ":" ++ secPadded
  else toString minutes ++ ":" ++ secPadded

/-! ## TrackingEngine (src/app/hooks/useSettings.ts, useGPSTracking)

The hook's `useState` record plus its refs (`locationSubscription`,
`lastLocation`, `startTime`, `timerInterval`) form the engine state.
Subscription and interval handles are modelled as opaque numeric ids.
`calculateDistance` (the haversine over real trigonometric functions) is
abstracted as the `dist` parameter of the position callback; the claims
quantify over the computed delta, the haversine being one instance. -/

structure GPSTrackingState where
  isTracking : Bool
  distance : ℚ
  currentSpeed : ℚ
  averageSpeed : ℚ
  elapsedTime : ℤ
  hasPermission : Bool
  permissionError : Bool
deriving DecidableEq, Repr

structure GPSTracking where
  state : GPSTrackingState
  locationSubscription : Option ℕ
  lastLocation : Option LocationCoords
  startTime : ℤ
  timerInterval : Option ℕ
deriving DecidableEq, Repr

/-- Outcome of `Location.requestForegroundPermissionsAsync` as observed by
`requestPermissions`: granted, denied, or the call threw. -/
inductive PermOutcome
  | granted
  | denied
  | error
deriving DecidableEq, Repr

def requestPermissions (o : PermOutcome) (s : GPSTrackingState) :
    GPSTrackingState :=
  match o with
  | PermOutcome.granted => { s with hasPermission := true }
  | PermOutcome.denied => { s with permissionError := true }
  | PermOutcome.error => { s with permissionError := true }

/-- `startTracking`: bails out (after re-requesting permission) when
`hasPermission` is false; otherwise resets the accumulators, records the
start time, starts a fresh interval `tickId`, clears `lastLocation` and
subscribes `subId` to position fixes.  `watchOk` is whether
`Location.watchPositionAsync` resolved; when it throws, the error is
caught after the reset has already run, so only the subscription ref
keeps its old value. -/
def startTracking (o : PermOutcome) (watchOk : Bool) (now : ℤ)
    (subId tickId : ℕ) (g : GPSTracking) : GPSTracking :=
  if g.state.hasPermission = false then
    { g with state := requestPermissions o g.state }
  else
    let st := { g.state with
      isTracking := true
      distance := 0
      currentSpeed := 0
      averageSpeed := 0
      elapsedTime := 0 }
    let g2 := { g with
      state := st
      lastLocation := none
      startTime := now
      timerInterval := some tickId }
    if watchOk then { g2 with locationSubscription := some subId } else g2

def stopTracking (g : GPSTracking) : GPSTracking :=
  { g with
    locationSubscription := none
    timerInterval := none
    state := { g.state with isTracking := false } }

/-- The `newLocation` record built at the top of the watch callback
(`location.coords.accuracy || 0`). -/
def mkNewLocation (loc : Fix) : LocationCoords :=
  { latitude := loc.latitude
    longitude := loc.longitude
    accuracy := jsOrZero loc.accuracy
    timestamp := loc.timestamp }

/-- The delta the callback computes between the previous fix and the new
one, for a given distance function. -/
def fixDelta (dist : LocationCoords → LocationCoords → ℚ)
    (loc : Fix) (lastLoc : LocationCoords) : ℚ :=
  dist lastLoc (mkNewLocation loc)

/-- The `watchPositionAsync` callback: when a previous fix exists, the
delta is gated by `distanceDelta > 2 && distanceDelta < 100`; on
acceptance distance accumulates, average speed is recomputed over
`max((now - startTime)/1000, 1)` seconds and current speed becomes
`location.coords.speed || 0`.  The fix becomes the new `lastLocation`
either way. -/
def locationCallback (dist : LocationCoords → LocationCoords → ℚ)
    (now : ℤ) (loc : Fix) (g : GPSTracking) : GPSTracking :=
  let newLocation := mkNewLocation loc
  match g.lastLocation with
  | some lastLoc =>
    let distanceDelta := dist lastLoc newLocation
    let st :=
      if 2 < distanceDelta ∧ distanceDelta < 100 then
        let newDistance := g.state.distance + distanceDelta
        let elapsed := max (((now : ℚ) - (g.startTime : ℚ)) / 1000) 1
        { g.state with
          distance := newDistance
          currentSpeed := jsOrZero loc.speed
          averageSpeed := newDistance / elapsed }
      else g.state
    { g with state := st, lastLocation := some newLocation }
  | none =>
    { g with lastLocation := some newLocation }

/-- The 1-second interval callback: elapsed time is recomputed from the
wall clock, `Math.floor((Date.now() - startTime)/1000)`. -/
def timerTick (now : ℤ) (g : GPSTracking) : GPSTracking :=
  { g with state := { g.state with
      elapsedTime := Int.fdiv (now - g.startTime) 1000 } }

/-- A whole stream of position fixes, each tagged with its delivery time,
folded through the callback. -/
def processFixes (dist : LocationCoords → LocationCoords → ℚ)
    (fixes : List (ℤ × Fix)) (g : GPSTracking) : GPSTracking :=
  fixes.foldl (fun acc p => locationCallback dist p.1 p.2 acc) g

/-! ## Concrete values used by witnesses and counterexamples -/

def exSettingsSnapshot : SettingsSnapshot :=
  { distanceUnit := DistanceUnit.km
    paceUnit := PaceUnit.minPerKm
    speedUnit := SpeedUnit.kmh }

def exSession : RunSession :=
  { id := "run_1"
    timestamp := 1700000000000
    duration := 600
    distance := 1500
    averageSpeed := 5 / 2
    steps := 1200
    settingsSnapshot := exSettingsSnapshot }

def exSession2 : RunSession :=
  { id := "run_2"
    timestamp := 1700000100000
    duration := 300
    distance := 800
    averageSpeed := 8 / 3
    steps := 700
    settingsSnapshot := exSettingsSnapshot }

def exCoords : LocationCoords :=
  { latitude := 0, longitude := 0, accuracy := 5, timestamp := 0 }

def exFix : Fix :=
  { latitude := 0
    longitude := 9 / 100000
    accuracy := some 5
    speed := some 3
    timestamp := 5000 }

def exFixNegSpeed : Fix :=
  { latitude := 0
    longitude := 1 / 1000
    accuracy := none
    speed := some (-1)
    timestamp := 6000 }

/-- A concrete engine that is mid-run: tracking, permission granted, 5m
accumulated, current speed 3 m/s, with live subscription and ticker. -/
def exTracking : GPSTracking :=
  { state :=
      { isTracking := true
        distance := 5
        currentSpeed := 3
        averageSpeed := 2
        elapsedTime := 10
        hasPermission := true
        permissionError := false }
    locationSubscription := some 1
    lastLocation := some exCoords
    startTime := 0
    timerInterval := some 1 }

/-- A concrete engine that has not been granted permission yet. -/
def exIdleNoPerm : GPSTracking :=
  { state :=
      { isTracking := false
        distance := 0
        currentSpeed := 0
        averageSpeed := 0
        elapsedTime := 0
        hasPermission := false
        permissionError := false }
    locationSubscription := none
    lastLocation := none
    startTime := 0
    timerInterval := none }

/-! ## Lemmas shared across claims -/

theorem locationCallback_distance_le
    (dist : LocationCoords → LocationCoords → ℚ) (now : ℤ) (loc : Fix)
    (g : GPSTracking) :
    g.state.distance ≤ (locationCallback dist now loc g).state.distance := by
  cases h : g.lastLocation with
  | none => simp [locationCallback, h]
  | some lastLoc =>
    simp only [locationCallback, h]
    split_ifs with hgate
    · have hpos : (0 : ℚ) < dist lastLoc (mkNewLocation loc) :=
        lt_trans (by norm_num) hgate.1
      simp only []
      linarith
    · simp

theorem processFixes_distance_le
    (dist : LocationCoords → LocationCoords → ℚ) (fixes : List (ℤ × Fix))
    (g : GPSTracking) :
    g.state.distance ≤ (processFixes dist fixes g).state.distance := by
  induction fixes generalizing g with
  | nil => simp [processFixes]
  | cons p ps ih =>
    calc g.state.distance
        ≤ (locationCallback dist p.1 p.2 g).state.distance :=
          locationCallback_distance_le dist p.1 p.2 g
      _ ≤ (processFixes dist ps (locationCallback dist p.1 p.2 g)).state.distance :=
          ih (locationCallback dist p.1 p.2 g)
      _ = (processFixes dist (p :: ps) g).state.distance := by
          simp [processFixes]

theorem callback_distance_eq
    (dist : LocationCoords → LocationCoords → ℚ) (now : ℤ) (loc : Fix)
    (g : GPSTracking) (lastLoc : LocationCoords)
    (h : g.lastLocation = some lastLoc) :
    (locationCallback dist now loc g).state.distance =
      (if 2 < fixDelta dist loc lastLoc ∧ fixDelta dist loc lastLoc < 100
        then g.state.distance + fixDelta dist loc lastLoc
        else g.state.distance) := by
  simp only [locationCallback, h, fixDelta]
  split_ifs with hgate <;> rfl

/-! ## Claim theorems -/

/-- C1: while tracking with a previous fix present, the computed delta is
added to the accumulated distance if and only if it passes the noise gate
`distanceDelta > 2 && distanceDelta < 100`: exactly 2 is rejected, values
strictly between 2 and 100 are accepted, and 100 or more is rejected. -/
theorem noise_gate_boundary
    (dist : LocationCoords → LocationCoords → ℚ) (now : ℤ) (loc : Fix)
    (g : GPSTracking) (lastLoc : LocationCoords)
    (h : g.lastLocation = some lastLoc) :
    ((locationCallback dist now loc g).state.distance =
      (if 2 < fixDelta dist loc lastLoc ∧ fixDelta dist loc lastLoc < 100
        then g.state.distance + fixDelta dist loc lastLoc
        else g.state.distance)) ∧
    (fixDelta dist loc lastLoc = 2 →
      (locationCallback dist now loc g).state.distance = g.state.distance) ∧
    (2 < fixDelta dist loc lastLoc ∧ fixDelta dist loc lastLoc < 100 →
      (locationCallback dist now loc g).state.distance
        = g.state.distance + fixDelta dist loc lastLoc) ∧
    (100 ≤ fixDelta dist loc lastLoc →
      (locationCallback dist now loc g).state.distance = g.state.distance) := by
  have hcall := callback_distance_eq dist now loc g lastLoc h
  refine ⟨hcall, ?_, ?_, ?_⟩
  · intro h2
    rw [hcall, if_neg]
    rw [h2]
    norm_num
  · intro hacc
    rw [hcall, if_pos hacc]
  · intro h100
    rw [hcall, if_neg]
    intro hcon
    linarith [hcon.2]

/-- Witness for C1 at a concrete mid-run engine and a distance function
reporting a 50m delta: the hypothesis holds and the delta is accepted. -/
theorem noise_gate_boundary_witness :
    exTracking.lastLocation = some exCoords ∧
    (locationCallback (fun _ _ => (50 : ℚ)) 5000 exFix exTracking).state.distance
      = exTracking.state.distance + fixDelta (fun _ _ => (50 : ℚ)) exFix exCoords :=
  ⟨rfl,
    (noise_gate_boundary (fun _ _ => (50 : ℚ)) 5000 exFix exTracking exCoords
      rfl).2.2.1 (by norm_num [fixDelta])⟩

/-- C3: accumulated distance never decreases across any delivered fix or
any sequence of fixes, and a successful start (permission granted) resets
it to exactly 0. -/
theorem distance_monotone_and_reset
    (dist : LocationCoords → LocationCoords → ℚ) (now : ℤ) (loc : Fix)
    (fixes : List (ℤ × Fix)) (g g2 : GPSTracking)
    (o : PermOutcome) (watchOk : Bool) (startNow : ℤ) (subId tickId : ℕ)
    (hperm : g2.state.hasPermission = true) :
    g.state.distance ≤ (locationCallback dist now loc g).state.distance ∧
    g.state.distance ≤ (processFixes dist fixes g).state.distance ∧
    (startTracking o watchOk startNow subId tickId g2).state.distance = 0 := by
  refine ⟨locationCallback_distance_le dist now loc g,
    processFixes_distance_le dist fixes g, ?_⟩
  simp only [startTracking, hperm]
  norm_num
  split <;> rfl

/-- Witness for C3: the mid-run engine has permission, and distance is
unchanged-or-grown by a concrete fix while a fresh start yields 0. -/
theorem distance_monotone_and_reset_witness :
    exTracking.state.hasPermission = true ∧
    (exTracking.state.distance ≤
      (locationCallback (fun _ _ => (50 : ℚ)) 5000 exFix exTracking).state.distance ∧
     exTracking.state.distance ≤
      (processFixes (fun _ _ => (50 : ℚ)) [(5000, exFix)] exTracking).state.distance ∧
     (startTracking PermOutcome.granted true 0 2 2 exTracking).state.distance = 0) :=
  ⟨rfl,
    distance_monotone_and_reset (fun _ _ => (50 : ℚ)) 5000 exFix [(5000, exFix)]
      exTracking exTracking PermOutcome.granted true 0 2 2 rfl⟩

/-- C2 counterexample: `startTracking` only guards on missing permission,
so calling it on an engine that is already tracking (permission granted,
5m accumulated, subscription 1 live) is not a no-op — it zeroes the
accumulated distance and installs a fresh subscription and ticker. -/
theorem start_while_tracking_counterexample :
    exTracking.state.isTracking = true ∧
    exTracking.state.hasPermission = true ∧
    exTracking.state.distance = 5 ∧
    (startTracking PermOutcome.granted true 1000 2 2 exTracking).state.distance
      ≠ exTracking.state.distance ∧
    (startTracking PermOutcome.granted true 1000 2 2 exTracking).locationSubscription
      ≠ exTracking.locationSubscription ∧
    (startTracking PermOutcome.granted true 1000 2 2 exTracking).timerInterval
      ≠ exTracking.timerInterval := by
  refine ⟨rfl, rfl, by norm_num [exTracking], ?_, ?_, ?_⟩ <;> decide

/-- C2 (amended): calling start() with permission granted — whether Idle
or already Tracking — always resets the accumulators, records the new
start time, starts a fresh ticker and replaces the position subscription
(the prior subscription handle is overwritten, not kept); in particular
stop() followed by start() always yields distance = 0. -/
theorem start_resets_even_while_tracking
    (g : GPSTracking) (o : PermOutcome) (now : ℤ) (subId tickId : ℕ)
    (hperm : g.state.hasPermission = true) :
    ((startTracking o true now subId tickId g).state.distance = 0 ∧
     (startTracking o true now subId tickId g).state.currentSpeed = 0 ∧
     (startTracking o true now subId tickId g).state.averageSpeed = 0 ∧
     (startTracking o true now subId tickId g).state.elapsedTime = 0 ∧
     (startTracking o true now subId tickId g).state.isTracking = true ∧
     (startTracking o true now subId tickId g).locationSubscription = some subId ∧
     (startTracking o true now subId tickId g).timerInterval = some tickId ∧
     (startTracking o true now subId tickId g).startTime = now ∧
     (startTracking o true now subId tickId g).lastLocation = none) ∧
    (startTracking o true now subId tickId (stopTracking g)).state.distance = 0 := by
  have hstop : (stopTracking g).state.hasPermission = true := hperm
  simp [startTracking, stopTracking, hperm, hstop]

/-- Witness for C2 at the concrete mid-run engine. -/
theorem start_resets_even_while_tracking_witness :
    exTracking.state.hasPermission = true ∧
    (((startTracking PermOutcome.granted true 1000 2 3 exTracking).state.distance = 0 ∧
      (startTracking PermOutcome.granted true 1000 2 3 exTracking).state.currentSpeed = 0 ∧
      (startTracking PermOutcome.granted true 1000 2 3 exTracking).state.averageSpeed = 0 ∧
      (startTracking PermOutcome.granted true 1000 2 3 exTracking).state.elapsedTime = 0 ∧
      (startTracking PermOutcome.granted true 1000 2 3 exTracking).state.isTracking = true ∧
      (startTracking PermOutcome.granted true 1000 2 3 exTracking).locationSubscription = some 2 ∧
      (startTracking PermOutcome.granted true 1000 2 3 exTracking).timerInterval = some 3 ∧
      (startTracking PermOutcome.granted true 1000 2 3 exTracking).startTime = 1000 ∧
      (startTracking PermOutcome.granted true 1000 2 3 exTracking).lastLocation = none) ∧
     (startTracking PermOutcome.granted true 1000 2 3 (stopTracking exTracking)).state.distance = 0) :=
  ⟨rfl, start_resets_even_while_tracking exTracking PermOutcome.granted 1000 2 3 rfl⟩

/-- C4 counterexample: a fix whose reported speed is -1 (the host API's
"unknown" sentinel) passes `location.coords.speed || 0` untouched, so an
accepted fix overwrites currentSpeed (previously 3) with the negative
value -1 — it is neither left unchanged nor kept nonnegative. -/
theorem currentSpeed_negative_counterexample :
    exTracking.state.currentSpeed = 3 ∧
    exFixNegSpeed.speed = some (-1) ∧
    (locationCallback (fun _ _ => (50 : ℚ)) 5000 exFixNegSpeed exTracking).state.currentSpeed
      = -1 ∧
    (locationCallback (fun _ _ => (50 : ℚ)) 5000 exFixNegSpeed exTracking).state.currentSpeed
      < 0 := by
  refine ⟨rfl, rfl, ?_, ?_⟩ <;> decide

/-- C4 (amended): on every fix with a previous fix present, the gate
accepting the delta sets currentSpeed to `speed || 0` — the reported
speed whenever it is present and nonzero, negative values included, and 0
when it is absent or zero — while a rejected fix leaves currentSpeed
unchanged; currentSpeed is therefore not guaranteed nonnegative. -/
theorem currentSpeed_gate_update
    (dist : LocationCoords → LocationCoords → ℚ) (now : ℤ) (loc : Fix)
    (g : GPSTracking) (lastLoc : LocationCoords)
    (h : g.lastLocation = some lastLoc) :
    (locationCallback dist now loc g).state.currentSpeed =
      (if 2 < fixDelta dist loc lastLoc ∧ fixDelta dist loc lastLoc < 100
        then jsOrZero loc.speed
        else g.state.currentSpeed) := by
  simp only [locationCallback, h, fixDelta]
  split_ifs with hgate <;> rfl

/-- Witness for C4 at the concrete mid-run engine: the accepted fix with
reported speed 3 sets currentSpeed to 3. -/
theorem currentSpeed_gate_update_witness :
    exTracking.lastLocation = some exCoords ∧
    (locationCallback (fun _ _ => (50 : ℚ)) 5000 exFix exTracking).state.currentSpeed =
      (if 2 < fixDelta (fun _ _ => (50 : ℚ)) exFix exCoords ∧
          fixDelta (fun _ _ => (50 : ℚ)) exFix exCoords < 100
        then jsOrZero exFix.speed
        else exTracking.state.currentSpeed) :=
  ⟨rfl, currentSpeed_gate_update (fun _ _ => (50 : ℚ)) 5000 exFix exTracking exCoords rfl⟩

/-- C9: start() without permission re-requests permission and returns:
the accumulators, the isTracking flag, the ticker and subscription
handles, the start time and the last fix are all left unchanged, and even
a Granted outcome only raises hasPermission — tracking does not begin in
that call. -/
theorem start_without_permission_noop
    (g : GPSTracking) (o : PermOutcome) (watchOk : Bool) (now : ℤ)
    (subId tickId : ℕ) (h : g.state.hasPermission = false) :
    (startTracking o watchOk now subId tickId g).state.isTracking
        = g.state.isTracking ∧
    (startTracking o watchOk now subId tickId g).state.distance
        = g.state.distance ∧
    (startTracking o watchOk now subId tickId g).state.currentSpeed
        = g.state.currentSpeed ∧
    (startTracking o watchOk now subId tickId g).state.averageSpeed
        = g.state.averageSpeed ∧
    (startTracking o watchOk now subId tickId g).state.elapsedTime
        = g.state.elapsedTime ∧
    (startTracking o watchOk now subId tickId g).locationSubscription
        = g.locationSubscription ∧
    (startTracking o watchOk now subId tickId g).timerInterval
        = g.timerInterval ∧
    (startTracking o watchOk now subId tickId g).lastLocation
        = g.lastLocation ∧
    (startTracking o watchOk now subId tickId g).startTime = g.startTime ∧
    (o = PermOutcome.granted →
      (startTracking o watchOk now subId tickId g).state.hasPermission = true) := by
  simp only [startTracking, h, if_pos]
  cases o <;> simp [requestPermissions]

/-- Witness for C9 at the concrete permissionless idle engine with a
granted outcome: everything but hasPermission is untouched. -/
theorem start_without_permission_noop_witness :
    exIdleNoPerm.state.hasPermission = false ∧
    ((startTracking PermOutcome.granted true 1000 2 2 exIdleNoPerm).state.isTracking
        = exIdleNoPerm.state.isTracking ∧
     (startTracking PermOutcome.granted true 1000 2 2 exIdleNoPerm).state.distance
        = exIdleNoPerm.state.distance ∧
     (startTracking PermOutcome.granted true 1000 2 2 exIdleNoPerm).state.currentSpeed
        = exIdleNoPerm.state.currentSpeed ∧
     (startTracking PermOutcome.granted true 1000 2 2 exIdleNoPerm).state.averageSpeed
        = exIdleNoPerm.state.averageSpeed ∧
     (startTracking PermOutcome.granted true 1000 2 2 exIdleNoPerm).state.elapsedTime
        = exIdleNoPerm.state.elapsedTime ∧
     (startTracking PermOutcome.granted true 1000 2 2 exIdleNoPerm).locationSubscription
        = exIdleNoPerm.locationSubscription ∧
     (startTracking PermOutcome.granted true 1000 2 2 exIdleNoPerm).timerInterval
        = exIdleNoPerm.timerInterval ∧
     (startTracking PermOutcome.granted true 1000 2 2 exIdleNoPerm).lastLocation
        = exIdleNoPerm.lastLocation ∧
     (startTracking PermOutcome.granted true 1000 2 2 exIdleNoPerm).startTime
        = exIdleNoPerm.startTime ∧
     (PermOutcome.granted = PermOutcome.granted →
       (startTracking PermOutcome.granted true 1000 2 2 exIdleNoPerm).state.hasPermission
         = true)) :=
  ⟨rfl, start_without_permission_noop exIdleNoPerm PermOutcome.granted true 1000 2 2 rfl⟩

theorem saveAll_eq (ss : List RunSession) :
    saveAll ss = ss.reverse.take MAX_RUNS_STORED := by
  induction ss using List.reverseRecOn with
  | nil => rfl
  | append_singleton ss s ih =>
    rw [saveAll, List.foldl_append]
    simp only [List.foldl_cons, List.foldl_nil]
    rw [← saveAll, ih, List.reverse_append]
    simp [saveRun, MAX_RUNS_STORED, List.take_take]

/-- C5: a successful saveRun prepends the session then truncates to the
100 most recent; a full store plus one save evicts exactly the single
oldest entry, and iterating saves over any session stream retains exactly
the newest 100 in newest-first order (so 101 saves into an empty store
leave exactly 100). -/
theorem history_cap
    (run : RunSession) (runs ss : List RunSession) :
    saveRun true run runs = (run :: runs).take 100 ∧
    (runs.length = 100 → saveRun true run runs = run :: runs.dropLast) ∧
    saveAll ss = ss.reverse.take 100 ∧
    (ss.length = 101 → (saveAll ss).length = 100) := by
  refine ⟨rfl, ?_, saveAll_eq ss, ?_⟩
  · intro h100
    show (run :: runs).take 100 = run :: runs.dropLast
    rw [List.dropLast_eq_take, h100]
    rfl
  · intro h101
    rw [saveAll_eq ss]
    simp [MAX_RUNS_STORED, h101]

/-- Witness for C5 at a store holding exactly 100 copies of a concrete
session and a 101-session stream. -/
theorem history_cap_witness :
    (List.replicate 100 exSession).length = 100 ∧
    (List.replicate 101 exSession).length = 101 ∧
    (saveRun true exSession2 (List.replicate 100 exSession)
        = exSession2 :: (List.replicate 100 exSession).dropLast ∧
     (saveAll (List.replicate 101 exSession)).length = 100) :=
  ⟨by simp, by simp,
    (history_cap exSession2 (List.replicate 100 exSession)
        (List.replicate 101 exSession)).2.1 (by simp),
    (history_cap exSession2 (List.replicate 100 exSession)
        (List.replicate 101 exSession)).2.2.2 (by simp)⟩

/-- C6 counterexample: `setRuns(trimmedRuns)` runs only after the awaited
storage write succeeds, so a failing write leaves the in-memory list
unchanged — saving into an empty store with a failing write yields `[]`,
not the attempted `[exSession]`. -/
theorem saveRun_failure_counterexample :
    saveRun false exSession [] = [] ∧
    saveRun true exSession [] = [exSession] ∧
    saveRun false exSession [] ≠ [exSession] := by
  refine ⟨rfl, rfl, ?_⟩
  decide

/-- C6 (amended): when the persistence write fails, the in-memory run
list is left exactly unchanged (the commit is sequenced after a
successful write); the failure stays non-fatal — the operation totally
returns the old list instead of raising. -/
theorem saveRun_failure_keeps_list (run : RunSession) (runs : List RunSession) :
    saveRun false run runs = runs := rfl

/-- C10: deleteRun and clearAllRuns commit to the in-memory list only
after the storage operation succeeds — a failing write leaves the list
unchanged — and a successful deleteRun keeps exactly the non-matching
entries as a sublist, preserving their relative order. -/
theorem delete_clear_commit_after_write (runId : String) (runs : List RunSession) :
    deleteRun false runId runs = runs ∧
    clearAllRuns false runs = runs ∧
    deleteRun true runId runs = runs.filter (fun run => run.id != runId) ∧
    (deleteRun true runId runs).Sublist runs ∧
    clearAllRuns true runs = [] := by
  refine ⟨rfl, rfl, rfl, ?_, rfl⟩
  exact List.filter_sublist runs

/-- C7: loading settings from an absent key or a failing read (including
a corrupt stored string, whose parse error is caught the same way) keeps
the documented defaults, all six fields exactly. -/
theorem settings_load_defaults :
    settingsAfterLoad ReadResult.absent = DEFAULT_SETTINGS ∧
    settingsAfterLoad ReadResult.failure = DEFAULT_SETTINGS ∧
    (settingsAfterLoad ReadResult.absent).distanceUnit = DistanceUnit.km ∧
    (settingsAfterLoad ReadResult.absent).paceUnit = PaceUnit.minPerKm ∧
    (settingsAfterLoad ReadResult.absent).speedUnit = SpeedUnit.kmh ∧
    (settingsAfterLoad ReadResult.absent).theme = Theme.light ∧
    (settingsAfterLoad ReadResult.absent).lockRotation = true ∧
    (settingsAfterLoad ReadResult.absent).gpsAccuracy = GpsAccuracy.high ∧
    (settingsAfterLoad ReadResult.failure).distanceUnit = DistanceUnit.km ∧
    (settingsAfterLoad ReadResult.failure).paceUnit = PaceUnit.minPerKm ∧
    (settingsAfterLoad ReadResult.failure).speedUnit = SpeedUnit.kmh ∧
    (settingsAfterLoad ReadResult.failure).theme = Theme.light ∧
    (settingsAfterLoad ReadResult.failure).lockRotation = true ∧
    (settingsAfterLoad ReadResult.failure).gpsAccuracy = GpsAccuracy.high :=
  ⟨rfl, rfl, rfl, rfl, rfl, rfl, rfl, rfl, rfl, rfl, rfl, rfl, rfl, rfl⟩

/-- C8: formatDistance divides meters by 1000 (km) or 1609.34 (miles) and
renders 2 decimals when the converted value is below 10, else 1 decimal;
at the boundary, 9999m gives "10.00" (9.999 rounds up under 2-decimal
rendering) while 10000m gives "10.0". -/
theorem formatDistance_boundary (meters : ℚ) (unit : DistanceUnit)
    (h : 0 ≤ meters) :
    convertDistance meters DistanceUnit.km = meters / 1000 ∧
    convertDistance meters DistanceUnit.miles = meters / (160934 / 100 : ℚ) ∧
    formatDistance meters unit =
      (if convertDistance meters unit < 10
        then toFixed (convertDistance meters unit) 2
        else toFixed (convertDistance meters unit) 1) ∧
    formatDistance 9999 DistanceUnit.km = "10.00" ∧
    formatDistance 10000 DistanceUnit.km = "10.0" := by
  refine ⟨rfl, rfl, rfl, ?_, ?_⟩ <;>
    · unfold formatDistance
      norm_num [convertDistance]
      rw [toFixed]
      norm_num [round_eq]
      decide

/-- Witness for C8 at the boundary input 9999 meters. -/
theorem formatDistance_boundary_witness :
    (0 : ℚ) ≤ 9999 ∧ formatDistance 9999 DistanceUnit.km = "10.00" :=
  ⟨by norm_num,
    (formatDistance_boundary 9999 DistanceUnit.km (by norm_num)).2.2.2.1⟩

end RunningShowoff
